import Mathlib

/-!
Shallow embedding of the `pandas2sql` package (files `constraints.py` and
`generators.py`) together with theorems settling the specification claims.

Python strings are `String`, Python lists are `List`, `Union[str, List[str]]`
arguments are the sum type `StrOrList`, `Optional[str]` is `Option String`,
raised exceptions are the error side of `Except PyExc`.  Scalar cell values of
a data frame are the inductive `PyVal`; a pandas `DataFrame` is modelled as an
ordered list of columns (name plus the type classification that
`pandas._libs.lib.infer_dtype` would report, which the spec treats as
pre-inferred input) and an ordered list of rows.
-/

namespace Pandas2Sql

/-- The single-quote character, written via its code point. -/
def sq : Char := Char.ofNat 39

/-- Exceptions raised by the embedded code. -/
inductive PyExc where
  /-- Builtin `TypeError`; raised by `SQLGenerator._lookup_dtype`
  (generators.py line 149). -/
  | typeError (msg : String)
  /-- Builtin `ValueError`; raised by `ForeignKey.__init__`
  (constraints.py lines 101 and 105) and by `range` when its step is zero. -/
  | valueError (msg : String)
  /-- Modelled from the spec: section 7 of the spec names a dedicated
  `UnsupportedTypeError` class for unmapped column types.  No such class
  exists anywhere in the source, which raises the builtin `TypeError`
  instead; this constructor exists only so that the claim naming
  `UnsupportedTypeError` can be stated and settled. -/
  | unsupportedTypeError (col : String) (dtype : String)
deriving DecidableEq

/-- True iff the exception is the spec-only `UnsupportedTypeError` class. -/
def PyExc.isUnsupportedType : PyExc → Bool
  | .unsupportedTypeError _ _ => true
  | _ => false

/-- True iff the computation ended in an `UnsupportedTypeError`. -/
def raisesUnsupportedType : Except PyExc String → Bool
  | .error e => e.isUnsupportedType
  | .ok _ => false

/-- A `Union[str, List[str]]` argument. -/
inductive StrOrList where
  | s (value : String)
  | l (values : List String)
deriving DecidableEq

/-- The `isinstance(x, str)` normalisation both constraint classes perform:
a bare string becomes the singleton list. -/
def StrOrList.toList : StrOrList → List String
  | .s v => [v]
  | .l vs => vs

/-- Python truthiness of an `Optional[str]`: `None` and the empty string are
falsy, every other string is truthy (used by `if delete and ...` and by
`if self.delete:`). -/
def truthy : Option String → Bool
  | none => false
  | some s => !(s == "")

/-- Python `str.upper()`, as the character-wise uppercase map (the ASCII
behaviour, which is all the allowed action keywords exercise). -/
def pyUpper (s : String) : String :=
  String.mk (s.data.map Char.toUpper)

/-- The two constraint classes of `constraints.py`, as a sum type.  The
constructor fields are exactly the attributes stored by the respective
`__init__` methods (after `isinstance` normalisation). -/
inductive Constraint where
  | primaryKey (columns : List String)
  | foreignKey (columns : List String) (refTable : String)
      (refColumns : List String) (delete : Option String)
      (update : Option String)
deriving DecidableEq

/-- `PrimaryKey.__init__` (constraints.py lines 36-41): normalise a bare
string to a singleton list and store the columns. -/
def mkPrimaryKey (columns : StrOrList) : Constraint :=
  .primaryKey columns.toList

/-- The tuple `valid` of `ForeignKey.__init__` (constraints.py line 99). -/
def validActions : List String :=
  ["NO ACTION", "RESTRICT", "CASCADE", "SET NULL", "SET DEFAULT"]

/-- `ForeignKey.__init__` (constraints.py lines 85-113): normalise the two
column arguments, validate the optional actions (`if delete and
delete.upper() not in valid` — note that `None` and the empty string are
falsy and therefore skip validation), raising `ValueError` on an invalid
action, then store the attributes.  The update-action message reproduces the
double space after the colon present on source line 106. -/
def mkForeignKey (columns : StrOrList) (refTable : String)
    (refColumns : StrOrList) (delete : Option String := none)
    (update : Option String := none) : Except PyExc Constraint :=
  let cols := columns.toList
  let refCols := refColumns.toList
  if truthy delete && !(validActions.contains (pyUpper (delete.getD ""))) then
    .error (.valueError ("Invalid delete action " ++ delete.getD "" ++
      ", choose one of: " ++ ", ".intercalate validActions))
  else if truthy update && !(validActions.contains (pyUpper (update.getD ""))) then
    .error (.valueError ("Invalid update action " ++ update.getD "" ++
      ", choose one of:  " ++ ", ".intercalate validActions))
  else
    .ok (.foreignKey cols refTable refCols delete update)

/-- `PrimaryKey.make` and `ForeignKey.make` (constraints.py lines 43-61 and
115-146), branching on the variant.  NOTE: source line 134 computes the
referenced-column list from `self.columns`, not from `self.ref_columns`;
the embedding reproduces that line faithfully. -/
def Constraint.make : Constraint → (String → String) → String
  | .primaryKey columns, idFn =>
      "CONSTRAINT " ++ idFn ("PK_" ++ "_".intercalate columns) ++
        " PRIMARY KEY (" ++ ", ".intercalate (columns.map idFn) ++ ")"
  | .foreignKey columns refTable _refColumns delete update, idFn =>
      let name := idFn ("FK_" ++ "_".intercalate columns)
      let cols := ", ".intercalate (columns.map idFn)
      let refTableQ := idFn refTable
      let refColsQ := ", ".intercalate (columns.map idFn)
      let base := "CONSTRAINT " ++ name ++ " FOREIGN KEY (" ++ cols ++
        ") REFERENCES " ++ refTableQ ++ "(" ++ refColsQ ++ ")"
      let withDel :=
        if truthy delete then base ++ " ON DELETE " ++ pyUpper (delete.getD "")
        else base
      if truthy update then withDel ++ " ON UPDATE " ++ pyUpper (update.getD "")
      else withDel

/-- The character scan performed by `value.replace("'", "''")` in
`SQLGenerator._quote` (generators.py line 132): a single-character pattern is
replaced left to right, so the scan doubles every single-quote character and
leaves every other character unchanged. -/
def replaceQuote : List Char → List Char
  | [] => []
  | c :: cs => if c = sq then sq :: sq :: replaceQuote cs else c :: replaceQuote cs

/-- `SQLGenerator._quote` (generators.py lines 128-133): double the embedded
single quotes, then wrap the result in one pair of single quotes. -/
def pyQuote (value : String) : String :=
  "\x27" ++ String.mk (replaceQuote value.data) ++ "\x27"

/-- Scalar cell values of a data frame. -/
inductive PyVal where
  | vstr (s : String)
  | vint (n : Int)
  | vbool (b : Bool)
  | vdate (y : Nat) (m : Nat) (d : Nat)
  /-- `tz` is the UTC offset in minutes of an aware datetime, `none` for a
  naive one (for which `strftime` renders `%z` as the empty string). -/
  | vdatetime (y : Nat) (mo : Nat) (d : Nat) (h : Nat) (mi : Nat) (s : Nat)
      (tz : Option Int)
deriving DecidableEq

/-- Zero-pad the decimal representation of a number to a given width. -/
def padZeros (w : Nat) (n : Nat) : String :=
  let s := toString n
  String.mk (List.replicate (w - s.length) (Char.ofNat 48)) ++ s

/-- `strftime("%Y-%m-%d")` on a date. -/
def fmtYmd (y : Nat) (m : Nat) (d : Nat) : String :=
  padZeros 4 y ++ "-" ++ padZeros 2 m ++ "-" ++ padZeros 2 d

/-- `strftime`-style `%z`: empty for a naive value, otherwise the signed
offset as `±HHMM`. -/
def fmtTz : Option Int → String
  | none => ""
  | some off =>
      (if off < 0 then "-" else "+") ++
        padZeros 2 (off.natAbs / 60) ++ padZeros 2 (off.natAbs % 60)

/-- Python `str()` of a scalar, the `series.astype(str)` fallback of
`SQLGenerator._convert_series` (generators.py line 173). -/
def pyStr : PyVal → String
  | .vstr s => s
  | .vint n => toString n
  | .vbool b => if b then "True" else "False"
  | .vdate y m d => fmtYmd y m d
  | .vdatetime y mo d h mi s _ =>
      fmtYmd y mo d ++ " " ++ padZeros 2 h ++ ":" ++ padZeros 2 mi ++ ":" ++
        padZeros 2 s

/-- `SQLGenerator._date` (generators.py lines 135-138):
`self._quote(value.strftime("%Y-%m-%d"))`.  Applied by `_convert_series`
only to columns classified `date`, whose cells are `vdate` values; the
catch-all line keeps the function total. -/
def pyDateLit : PyVal → String
  | .vdate y m d => pyQuote (fmtYmd y m d)
  | v => pyQuote (pyStr v)

/-- `SQLGenerator._datetime` (generators.py lines 140-143):
`self._quote(value.strftime("%Y-%m-%dT%H:%M:%S%z"))`.  Applied by
`_convert_series` only to columns classified `datetime`/`datetime64`. -/
def pyDatetimeLit : PyVal → String
  | .vdatetime y mo d h mi s tz =>
      pyQuote (fmtYmd y mo d ++ "T" ++ padZeros 2 h ++ ":" ++ padZeros 2 mi ++
        ":" ++ padZeros 2 s ++ fmtTz tz)
  | v => pyQuote (pyStr v)

/-- The per-cell effect of `SQLGenerator._convert_series` (generators.py
lines 160-173) on a column whose `infer_dtype` classification is `dtype`:
string-like classes are quoted, datetime/date classes are formatted, and
every other class falls through to `astype(str)`. -/
def convertCell (dtype : String) (v : PyVal) : String :=
  if ["string", "categorical", "bytes"].contains dtype then pyQuote (pyStr v)
  else if ["datetime", "datetime64"].contains dtype then pyDatetimeLit v
  else if dtype = "date" then pyDateLit v
  else pyStr v

/-- One column of a data frame: its name, and the type classification that
`pandas._libs.lib.infer_dtype` reports for it (an external pandas function;
the spec treats the classification as pre-inferred input carried by the
table abstraction). -/
structure Column where
  name : String
  dtype : String
deriving DecidableEq

/-- A pandas `DataFrame`: ordered columns and ordered rows of scalar cells,
each row aligned with the column list. -/
structure DataFrame where
  cols : List Column
  rows : List (List PyVal)
deriving DecidableEq

/-- A generator instance: the stored indent width (`__init__`, generators.py
lines 25-26) together with the `_id` static method, the only member the four
dialect subclasses override. -/
structure SQLGenerator where
  indent : Nat
  idFn : String → String

/-- `" " * indent`. -/
def spaces (n : Nat) : String :=
  String.mk (List.replicate n (Char.ofNat 32))

/-- `SQLGenerator._SQL_TYPES` (generators.py lines 14-23), a single class
attribute shared — not overridden — by all four dialect subclasses. -/
def SQL_TYPES : List (String × String) :=
  [("string", "TEXT"), ("floating", "REAL"), ("integer", "INTEGER"),
   ("datetime", "TIMESTAMP"), ("datetime64", "TIMESTAMP"), ("date", "DATE"),
   ("time", "TIME"), ("boolean", "INTEGER")]

/-- Dictionary lookup in `_SQL_TYPES`. -/
def sqlTypeOf (dtype : String) : Option String :=
  SQL_TYPES.lookup dtype

/-- `SQLGenerator._lookup_dtype` (generators.py lines 145-150): membership
test plus index into `_SQL_TYPES`, raising `TypeError` when absent. -/
def lookupDtype (dtype : String) (col : String) : Except PyExc String :=
  match sqlTypeOf dtype with
  | none => .error (.typeError ("Unsupported data type \x27" ++ dtype ++
      "\x27 for column \x27" ++ col ++ "\x27."))
  | some t => .ok t

/-- Insertion into a Python `dict` kept as an ordered association list:
an existing key keeps its position and gets the new value, a new key is
appended. -/
def dictInsert (k : String) (v : String) :
    List (String × String) → List (String × String)
  | [] => [(k, v)]
  | (k0, v0) :: rest =>
      if k0 = k then (k0, v) :: rest else (k0, v0) :: dictInsert k v rest

/-- The dict comprehension of `SQLGenerator._map_dtypes` (generators.py
lines 152-158), evaluated in column order with the accumulated dictionary;
the first failing lookup aborts the whole comprehension. -/
def mapDtypes (g : SQLGenerator) :
    List Column → List (String × String) → Except PyExc (List (String × String))
  | [], acc => .ok acc
  | c :: rest, acc =>
      match lookupDtype c.dtype c.name with
      | .error e => .error e
      | .ok t => mapDtypes g rest (dictInsert (g.idFn c.name) t acc)

/-- `SQLGenerator._map_dtypes` applied to a data frame. -/
def mapDtypesDf (g : SQLGenerator) (df : DataFrame) :
    Except PyExc (List (String × String)) :=
  mapDtypes g df.cols []

/-- `SQLGenerator.generate_schema` (generators.py lines 28-65).  The source
guards the constraint loop with `if constraints:`; appending the rendered
clauses of a possibly empty list is the same computation (the default
`constraints=None` is the empty list here). -/
def generateSchema (g : SQLGenerator) (df : DataFrame) (tableName : String)
    (constraints : List Constraint := []) : Except PyExc String :=
  let tn := g.idFn tableName
  match mapDtypesDf g df with
  | .error e => .error e
  | .ok pairs =>
      let tableSpec := pairs.map (fun p => p.1 ++ " " ++ p.2)
      let tableSpec := tableSpec ++ constraints.map (fun c => c.make g.idFn)
      let tableSpec := tableSpec.map (fun line => spaces g.indent ++ line)
      .ok ("CREATE TABLE " ++ tn ++ " (\n" ++ ",\n".intercalate tableSpec ++
        "\n);\n")

/-- The `column_spec` string of `generate_inserts` (generators.py line 90). -/
def insertColumnSpec (g : SQLGenerator) (df : DataFrame) : String :=
  ", ".intercalate (df.cols.map (fun c => g.idFn c.name))

/-- One formatted row tuple of `generate_inserts` (generators.py lines
94-107): each cell converted by `_convert_series` according to its column's
classification, joined with `", "`, wrapped by the indented `row_tmpl`. -/
def formattedRow (g : SQLGenerator) (df : DataFrame) (row : List PyVal) :
    String :=
  spaces g.indent ++ "(" ++
    ", ".intercalate ((df.cols.zip row).map (fun p => convertCell p.1.dtype p.2))
    ++ ")"

/-- One filled-in `insert_tmpl` of `generate_inserts` (generators.py lines
91-93 and 114-118). -/
def insertStatement (g : SQLGenerator) (df : DataFrame) (tableName : String)
    (vals : List String) : String :=
  "INSERT INTO " ++ g.idFn tableName ++ " (" ++ insertColumnSpec g df ++
    ")\nVALUES\n" ++ ",\n".intercalate vals ++ "\n;\n\n"

/-- Python `range(0, stop, step)` as a list of indices: a zero step raises
`ValueError`, a positive step yields `0, step, 2*step, ...` below `stop`
(there are `⌈stop/step⌉ = (stop + step - 1) / step` of them), and a negative
step yields the empty range because the start `0` is not above `stop ≥ 0`. -/
def pyRange0 (stop : Nat) (step : Int) : Except PyExc (List Nat) :=
  if step = 0 then .error (.valueError "range() arg 3 must not be zero")
  else if 0 < step then
    .ok ((List.range ((stop + step.toNat - 1) / step.toNat)).map
      (fun i => i * step.toNat))
  else .ok []

/-- `SQLGenerator.generate_inserts` (generators.py lines 67-120): format all
rows, then slice `df[idx : idx + batch]` for each loop index produced by
`range(0, len(df), batch)` and fill the statement template. -/
def generateInserts (g : SQLGenerator) (df : DataFrame) (tableName : String)
    (batch : Int := 100) : Except PyExc (List String) :=
  let rows := df.rows.map (formattedRow g df)
  match pyRange0 rows.length batch with
  | .error e => .error e
  | .ok idxs =>
      .ok (idxs.map (fun i =>
        insertStatement g df tableName ((rows.drop i).take batch.toNat)))

/-- The consecutive slices `xs[i*b : i*b + b]` taken by the insert loop for
a positive batch size `b`. -/
def sliceChunks (b : Nat) (xs : List α) : List (List α) :=
  (List.range ((xs.length + b - 1) / b)).map (fun i => (xs.drop (i * b)).take b)

/-- `SQLGenerator._id` (generators.py lines 122-126), also the `_id` of
`PostgreSQLGenerator` and `SQLiteGenerator`. -/
def baseId (identifier : String) : String :=
  "\"" ++ identifier ++ "\""

/-- `MSSQLGenerator._id` (generators.py lines 179-181). -/
def mssqlId (identifier : String) : String :=
  "[" ++ identifier ++ "]"

/-- `MySQLGenerator._id` (generators.py lines 187-189): backtick quoting. -/
def mysqlId (identifier : String) : String :=
  "\x60" ++ identifier ++ "\x60"

/-- `PostgreSQLGenerator._id` (generators.py lines 195-197). -/
def postgresqlId (identifier : String) : String :=
  "\"" ++ identifier ++ "\""

/-- `SQLiteGenerator._id` (generators.py lines 203-205). -/
def sqliteId (identifier : String) : String :=
  "\"" ++ identifier ++ "\""

/-- A `SQLGenerator()` instance of the base class, default indent 2. -/
def baseGenerator : SQLGenerator :=
  ⟨2, baseId⟩

/-- A `MSSQLGenerator()` instance, default indent 2. -/
def mssqlGenerator : SQLGenerator :=
  ⟨2, mssqlId⟩

/-- A `MySQLGenerator()` instance, default indent 2. -/
def mysqlGenerator : SQLGenerator :=
  ⟨2, mysqlId⟩

/-- A `PostgreSQLGenerator()` instance, default indent 2. -/
def postgresqlGenerator : SQLGenerator :=
  ⟨2, postgresqlId⟩

/-- A `SQLiteGenerator()` instance, default indent 2. -/
def sqliteGenerator : SQLGenerator :=
  ⟨2, sqliteId⟩

/-- Wrap an identifier in a fixed pair of delimiter strings. -/
def wrapDelims (l : String) (r : String) (s : String) : String :=
  l ++ s ++ r

/-- Schema output as a function of nothing but the identifier delimiter
pair (indent fixed at the default 2). -/
def schemaWithDelims (l : String) (r : String) (df : DataFrame)
    (tableName : String) (constraints : List Constraint) :
    Except PyExc String :=
  generateSchema ⟨2, wrapDelims l r⟩ df tableName constraints

/-- Insert output as a function of nothing but the identifier delimiter
pair (indent fixed at the default 2). -/
def insertsWithDelims (l : String) (r : String) (df : DataFrame)
    (tableName : String) (batch : Int) : Except PyExc (List String) :=
  generateInserts ⟨2, wrapDelims l r⟩ df tableName batch

/-- The example table of the spec, section 8: columns `id` (integer) and
`name` (string) with the single row `(1, "O'Brien")` (quote written via its
escape). -/
def usersDf : DataFrame :=
  ⟨[⟨"id", "integer"⟩, ⟨"name", "string"⟩], [[.vint 1, .vstr "O\x27Brien"]]⟩

/-- A three-row, one-column integer table used as a batching fixture. -/
def threeRowDf : DataFrame :=
  ⟨[⟨"id", "integer"⟩], [[.vint 1], [.vint 2], [.vint 3]]⟩

/-- A table with one column whose classification `complex` has no entry in
`_SQL_TYPES`. -/
def complexDf : DataFrame :=
  ⟨[⟨"c", "complex"⟩], []⟩

theorem replaceQuote_eq_flatMap (l : List Char) :
    replaceQuote l = l.flatMap (fun c => if c = sq then [sq, sq] else [c]) := by
  induction l with
  | nil => rfl
  | cons c cs ih =>
      by_cases h : c = sq <;> simp [replaceQuote, h, ih]

theorem replaceQuote_count (l : List Char) :
    (replaceQuote l).count sq = 2 * l.count sq := by
  induction l with
  | nil => rfl
  | cons c cs ih =>
      by_cases h : c = sq
      · simp [replaceQuote, h, ih, List.count_cons]
        omega
      · simp [replaceQuote, h, ih, List.count_cons]

theorem replaceQuote_length (l : List Char) :
    (replaceQuote l).length = l.length + l.count sq := by
  induction l with
  | nil => rfl
  | cons c cs ih =>
      by_cases h : c = sq
      · simp [replaceQuote, h, ih, List.count_cons]
        omega
      · simp [replaceQuote, h, ih, List.count_cons]
        omega

theorem pyQuote_data (v : String) :
    (pyQuote v).data = sq :: (replaceQuote v.data ++ [sq]) := by
  simp [pyQuote]
  rfl

/-- C5: `_quote` returns the value with every embedded single-quote
character doubled exactly once and no other character changed, wrapped in
exactly one pair of single quotes: the character data of the literal is one
quote, then the per-character expansion of the value (a quote becomes two
quotes, anything else is kept), then one closing quote.  Consequently the
literal holds two quotes plus two per embedded quote, and its length exceeds
the value's length by exactly one per embedded quote plus the two wrapping
quotes. -/
theorem claim_C5_quote_escaping (v : String) :
    pyQuote v =
      String.mk (sq ::
        (v.data.flatMap (fun c => if c = sq then [sq, sq] else [c]) ++ [sq])) ∧
    (pyQuote v).data.count sq = 2 + 2 * v.data.count sq ∧
    (pyQuote v).length = v.length + v.data.count sq + 2 := by
  refine ⟨?_, ?_, ?_⟩
  · apply String.ext
    rw [pyQuote_data, replaceQuote_eq_flatMap]
  · rw [pyQuote_data, List.count_cons_self, List.count_append, replaceQuote_count]
    have h1 : List.count sq [sq] = 1 := by
      rw [List.count_cons_self, List.count_nil]
    omega
  · have hl : (pyQuote v).length = (pyQuote v).data.length := rfl
    have hv : v.length = v.data.length := rfl
    rw [hl, pyQuote_data, List.length_cons, List.length_append,
      replaceQuote_length, List.length_singleton, hv]

/-- C1: evaluation at a failing input.  `ForeignKey.make` (line 134 of
constraints.py builds the referenced-column list from `self.columns`)
renders `REFERENCES "parent"("child_id")` — repeating the local column —
for a constraint whose referenced column is `id`, instead of the
`REFERENCES "parent"("id")` the spec contract requires. -/
theorem claim_C1_ref_columns_bug :
    mkForeignKey (.l ["child_id"]) "parent" (.l ["id"]) none none
      = Except.ok (.foreignKey ["child_id"] "parent" ["id"] none none) ∧
    (Constraint.foreignKey ["child_id"] "parent" ["id"] none none).make baseId
      = "CONSTRAINT \"FK_child_id\" FOREIGN KEY (\"child_id\") REFERENCES \"parent\"(\"child_id\")" ∧
    (Constraint.foreignKey ["child_id"] "parent" ["id"] none none).make baseId
      ≠ "CONSTRAINT \"FK_child_id\" FOREIGN KEY (\"child_id\") REFERENCES \"parent\"(\"id\")" := by
  refine ⟨rfl, rfl, ?_⟩
  decide

/-- C9: constructing a `PrimaryKey` from a bare string is the same
constraint as constructing it from the singleton list, with the same stored
columns and the same rendered clause under every quoting function; the same
holds for both the local and the referenced column arguments of
`ForeignKey`. -/
theorem claim_C9_string_singleton (s rt : String) (cols rcs : StrOrList)
    (d u : Option String) (idFn : String → String) :
    mkPrimaryKey (.s s) = mkPrimaryKey (.l [s]) ∧
    (mkPrimaryKey (.s s)).make idFn = (mkPrimaryKey (.l [s])).make idFn ∧
    mkForeignKey (.s s) rt rcs d u = mkForeignKey (.l [s]) rt rcs d u ∧
    mkForeignKey cols rt (.s s) d u = mkForeignKey cols rt (.l [s]) d u :=
  ⟨rfl, rfl, rfl, rfl⟩

/-- C4 counterexample: the empty string is an action whose upper-cased form
is not in the allowed set, yet `ForeignKey("" as on_delete)` raises nothing:
being falsy, the empty string skips the `if delete and ...` validation, the
constraint is built, and no `ON DELETE` clause is rendered. -/
theorem claim_C4_counterexample :
    validActions.contains (pyUpper "") = false ∧
    mkForeignKey (.l ["a"]) "t" (.l ["b"]) (some "") none
      = Except.ok (.foreignKey ["a"] "t" ["b"] (some "") none) ∧
    (Constraint.foreignKey ["a"] "t" ["b"] (some "") none).make baseId
      = "CONSTRAINT \"FK_a\" FOREIGN KEY (\"a\") REFERENCES \"t\"(\"a\")" := by
  exact ⟨by decide, rfl, rfl⟩

/-- C4 (amended): for a non-empty action string whose upper-cased form is
outside the allowed set, construction raises `ValueError` (the code defines
no `InvalidConstraintError` class); for an action in the set the constraint
is constructed and its clause appends ` ON DELETE `/` ON UPDATE ` followed
by the upper-cased action; with no action supplied the constraint is
constructed and the rendered clause is the bare
`CONSTRAINT ... FOREIGN KEY ... REFERENCES ...` text with no action
clause. -/
theorem claim_C4_action_validation (cols : StrOrList) (rt : String)
    (rcs : StrOrList) (a : String) (idFn : String → String) :
    (a ≠ "" → validActions.contains (pyUpper a) = false →
      mkForeignKey cols rt rcs (some a) none
        = Except.error (.valueError ("Invalid delete action " ++ a ++
            ", choose one of: " ++ ", ".intercalate validActions)) ∧
      mkForeignKey cols rt rcs none (some a)
        = Except.error (.valueError ("Invalid update action " ++ a ++
            ", choose one of:  " ++ ", ".intercalate validActions))) ∧
    (validActions.contains (pyUpper a) = true →
      mkForeignKey cols rt rcs (some a) none
        = Except.ok (.foreignKey cols.toList rt rcs.toList (some a) none) ∧
      mkForeignKey cols rt rcs none (some a)
        = Except.ok (.foreignKey cols.toList rt rcs.toList none (some a)) ∧
      (Constraint.foreignKey cols.toList rt rcs.toList (some a) none).make idFn
        = (Constraint.foreignKey cols.toList rt rcs.toList none none).make idFn
            ++ " ON DELETE " ++ pyUpper a ∧
      (Constraint.foreignKey cols.toList rt rcs.toList none (some a)).make idFn
        = (Constraint.foreignKey cols.toList rt rcs.toList none none).make idFn
            ++ " ON UPDATE " ++ pyUpper a) ∧
    (mkForeignKey cols rt rcs none none
        = Except.ok (.foreignKey cols.toList rt rcs.toList none none) ∧
      (Constraint.foreignKey cols.toList rt rcs.toList none none).make idFn
        = "CONSTRAINT " ++ idFn ("FK_" ++ "_".intercalate cols.toList) ++
            " FOREIGN KEY (" ++ ", ".intercalate (cols.toList.map idFn) ++
            ") REFERENCES " ++ idFn rt ++ "(" ++
            ", ".intercalate (cols.toList.map idFn) ++ ")") := by
  refine ⟨?_, ?_, rfl, rfl⟩
  · intro hne hc
    have hc2 : pyUpper a ∉ validActions := by simpa using hc
    constructor <;> simp [mkForeignKey, truthy, hc2, hne]
  · intro hc
    have hne : a ≠ "" := by
      intro h
      subst h
      have hfalse : validActions.contains (pyUpper "") = false := by decide
      rw [hfalse] at hc
      cases hc
    have hc2 : pyUpper a ∈ validActions := by simpa using hc
    refine ⟨?_, ?_, ?_, ?_⟩ <;>
      simp [mkForeignKey, Constraint.make, truthy, hc2, hne]

/-- C4 witness: the action `cascade` is accepted case-insensitively, the
constraint is built, and the clause ends in ` ON DELETE CASCADE`. -/
theorem claim_C4_witness :
    validActions.contains (pyUpper "cascade") = true ∧
    mkForeignKey (.l ["a"]) "t" (.l ["b"]) (some "cascade") none
      = Except.ok (.foreignKey ["a"] "t" ["b"] (some "cascade") none) ∧
    (Constraint.foreignKey ["a"] "t" ["b"] (some "cascade") none).make baseId
      = "CONSTRAINT \"FK_a\" FOREIGN KEY (\"a\") REFERENCES \"t\"(\"a\") ON DELETE CASCADE" := by
  refine ⟨by decide, ?_, ?_⟩
  · exact ((claim_C4_action_validation (.l ["a"]) "t" (.l ["b"]) "cascade"
      baseId).2.1 (by decide)).1
  · exact (((claim_C4_action_validation (.l ["a"]) "t" (.l ["b"]) "cascade"
      baseId).2.1 (by decide)).2.2.1).trans (by rfl)

/-- C3 counterexample: for the table with one column of classification
`complex`, `generate_schema` raises the builtin `TypeError` — no
`UnsupportedTypeError` class exists in the code, so the raised exception is
not one. -/
theorem claim_C3_counterexample :
    generateSchema baseGenerator complexDf "t" []
      = Except.error (.typeError
          "Unsupported data type \x27complex\x27 for column \x27c\x27.") ∧
    raisesUnsupportedType (generateSchema baseGenerator complexDf "t" [])
      = false :=
  ⟨rfl, rfl⟩

/-- C3 (amended): if some column's type classification has no entry in
`_SQL_TYPES` then `generate_schema` raises a builtin `TypeError` whose
message carries the first such column's name and classification and returns
no output at all; if every column's classification is mapped, the call
returns a schema string and no error is raised. -/
theorem claim_C3_unsupported_type (g : SQLGenerator) (df : DataFrame)
    (tableName : String) (cons : List Constraint) :
    match df.cols.find? (fun c => (sqlTypeOf c.dtype).isNone) with
    | some c =>
        generateSchema g df tableName cons
          = Except.error (.typeError ("Unsupported data type \x27" ++ c.dtype
              ++ "\x27 for column \x27" ++ c.name ++ "\x27."))
    | none => ∃ s, generateSchema g df tableName cons = Except.ok s := by
  have main : ∀ (cs : List Column) (acc : List (String × String)),
      match cs.find? (fun c => (sqlTypeOf c.dtype).isNone) with
      | some c =>
          mapDtypes g cs acc
            = Except.error (.typeError ("Unsupported data type \x27" ++
                c.dtype ++ "\x27 for column \x27" ++ c.name ++ "\x27."))
      | none => ∃ pairs, mapDtypes g cs acc = Except.ok pairs := by
    intro cs
    induction cs with
    | nil => exact fun acc => ⟨acc, rfl⟩
    | cons c rest ih =>
        intro acc
        cases h : sqlTypeOf c.dtype with
        | none =>
            have hfind : List.find? (fun c => (sqlTypeOf c.dtype).isNone)
                (c :: rest) = some c := by
              simp [h]
            rw [hfind]
            simp [mapDtypes, lookupDtype, h]
        | some t =>
            have hfind : List.find? (fun c => (sqlTypeOf c.dtype).isNone)
                (c :: rest)
                = List.find? (fun c => (sqlTypeOf c.dtype).isNone) rest := by
              simp [h]
            rw [hfind]
            have hstep : mapDtypes g (c :: rest) acc
                = mapDtypes g rest (dictInsert (g.idFn c.name) t acc) := by
              simp [mapDtypes, lookupDtype, h]
            have hrest := ih (dictInsert (g.idFn c.name) t acc)
            cases hf : rest.find? (fun c => (sqlTypeOf c.dtype).isNone) with
            | none =>
                rw [hf] at hrest
                obtain ⟨pairs, hp2⟩ := hrest
                exact ⟨pairs, hstep.trans hp2⟩
            | some cbad =>
                rw [hf] at hrest
                exact hstep.trans hrest
  have hm := main df.cols []
  cases hf : df.cols.find? (fun c => (sqlTypeOf c.dtype).isNone) with
  | none =>
      rw [hf] at hm
      obtain ⟨pairs, hp⟩ := hm
      refine ⟨"CREATE TABLE " ++ g.idFn tableName ++ " (\n" ++
        ",\n".intercalate
          ((pairs.map (fun p => p.1 ++ " " ++ p.2) ++
            cons.map (fun c => c.make g.idFn)).map
              (fun line => spaces g.indent ++ line)) ++ "\n);\n", ?_⟩
      unfold generateSchema mapDtypesDf
      rw [hp]
  | some c =>
      rw [hf] at hm
      unfold generateSchema mapDtypesDf
      rw [hm]

theorem generateInserts_zero (g : SQLGenerator) (df : DataFrame)
    (tableName : String) :
    generateInserts g df tableName 0
      = Except.error (.valueError "range() arg 3 must not be zero") :=
  rfl

theorem generateInserts_neg (g : SQLGenerator) (df : DataFrame)
    (tableName : String) (b : Int) (hb : b < 0) :
    generateInserts g df tableName b = Except.ok [] := by
  unfold generateInserts pyRange0
  have h0 : ¬(b = 0) := by omega
  have h1 : ¬(0 < b) := by omega
  simp [h0, h1]

/-- C10: a negative batch size makes the loop range `range(0, R, batch)`
empty for every table, so `generate_inserts` silently returns the empty
list — no statement for any row and no error. -/
theorem claim_C10_negative_batch (g : SQLGenerator) (df : DataFrame)
    (tableName : String) (b : Int) (hb : b < 0) :
    generateInserts g df tableName b = Except.ok [] :=
  generateInserts_neg g df tableName b hb

/-- C10 witness at batch `-1` on a three-row table. -/
theorem claim_C10_witness :
    ((-1 : Int) < 0) ∧
    generateInserts mssqlGenerator threeRowDf "t" (-1) = Except.ok [] :=
  ⟨by decide, claim_C10_negative_batch mssqlGenerator threeRowDf "t" (-1)
    (by decide)⟩

/-- C6 counterexample: on a one-row table with batch size `-1` the call is
not rejected — it returns the empty statement list. -/
theorem claim_C6_counterexample :
    generateInserts baseGenerator usersDf "users" (-1)
      = Except.ok ([] : List String) :=
  rfl

/-- C6 (amended): `generate_inserts` performs no batch-size validation.  A
zero batch size raises `ValueError` (surfaced from `range`, not from any
dedicated check), while a negative batch size is accepted and yields the
empty list. -/
theorem claim_C6_nonpositive_batch (g : SQLGenerator) (df : DataFrame)
    (tableName : String) (b : Int) (hb : b ≤ 0) :
    (b = 0 → generateInserts g df tableName b
        = Except.error (.valueError "range() arg 3 must not be zero")) ∧
    (b < 0 → generateInserts g df tableName b = Except.ok []) := by
  constructor
  · intro h0
    subst h0
    exact generateInserts_zero g df tableName
  · intro hneg
    exact generateInserts_neg g df tableName b hneg

/-- C6 witness at batch `0`. -/
theorem claim_C6_witness :
    ((0 : Int) ≤ 0) ∧
    generateInserts sqliteGenerator threeRowDf "t" 0
      = Except.error (.valueError "range() arg 3 must not be zero") :=
  ⟨by decide,
    (claim_C6_nonpositive_batch sqliteGenerator threeRowDf "t" 0
      (by decide)).1 rfl⟩

/-- C8: each of the four dialect generators produces, on every input, the
output of one shared delimiter-parameterised renderer at that dialect's
identifier delimiter pair — `[`/`]` for MSSQL, backticks for MySQL, double
quotes for PostgreSQL and SQLite.  The subclasses override nothing but
`_id`, and `_SQL_TYPES` is one shared table (`SQL_TYPES` here), so the four
outputs differ at most in the delimiter characters: even the
TIMESTAMP/BOOLEAN keyword variance the claim allows does not occur. -/
theorem claim_C8_dialect_variance (df : DataFrame) (tableName : String)
    (cons : List Constraint) (b : Int) :
    generateSchema mssqlGenerator df tableName cons
      = schemaWithDelims "[" "]" df tableName cons ∧
    generateInserts mssqlGenerator df tableName b
      = insertsWithDelims "[" "]" df tableName b ∧
    generateSchema mysqlGenerator df tableName cons
      = schemaWithDelims "\x60" "\x60" df tableName cons ∧
    generateInserts mysqlGenerator df tableName b
      = insertsWithDelims "\x60" "\x60" df tableName b ∧
    generateSchema postgresqlGenerator df tableName cons
      = schemaWithDelims "\"" "\"" df tableName cons ∧
    generateInserts postgresqlGenerator df tableName b
      = insertsWithDelims "\"" "\"" df tableName b ∧
    generateSchema sqliteGenerator df tableName cons
      = schemaWithDelims "\"" "\"" df tableName cons ∧
    generateInserts sqliteGenerator df tableName b
      = insertsWithDelims "\"" "\"" df tableName b :=
  ⟨rfl, rfl, rfl, rfl, rfl, rfl, rfl, rfl⟩

theorem dictInsert_append (k v : String) (acc : List (String × String))
    (h : ∀ p ∈ acc, p.1 ≠ k) :
    dictInsert k v acc = acc ++ [(k, v)] := by
  induction acc with
  | nil => rfl
  | cons p rest ih =>
      obtain ⟨k0, v0⟩ := p
      have hk : k0 ≠ k := h (k0, v0) (by simp)
      simp only [dictInsert, if_neg hk, List.cons_append, List.cons.injEq,
        true_and]
      exact ih (fun q hq => h q (by simp [hq]))

theorem mapDtypes_ok (g : SQLGenerator) :
    ∀ (cs : List Column) (acc : List (String × String)),
      (∀ c ∈ cs, (sqlTypeOf c.dtype).isSome) →
      (acc.map Prod.fst ++ cs.map (fun c => g.idFn c.name)).Nodup →
      mapDtypes g cs acc
        = Except.ok (acc ++ cs.map
            (fun c => (g.idFn c.name, (sqlTypeOf c.dtype).getD ""))) := by
  intro cs
  induction cs with
  | nil =>
      intro acc _ _
      simp [mapDtypes]
  | cons c rest ih =>
      intro acc hall hnodup
      obtain ⟨t, ht⟩ := Option.isSome_iff_exists.mp (hall c (by simp))
      have hstep : mapDtypes g (c :: rest) acc
          = mapDtypes g rest (dictInsert (g.idFn c.name) t acc) := by
        simp [mapDtypes, lookupDtype, ht]
      have hnodup2 : (acc.map Prod.fst ++
          (g.idFn c.name :: rest.map (fun c => g.idFn c.name))).Nodup := by
        simpa using hnodup
      have hkey : ∀ p ∈ acc, p.1 ≠ g.idFn c.name := by
        intro p hp heq
        have hdisj := (List.nodup_append.mp hnodup2).2.2
        exact hdisj (List.mem_map_of_mem Prod.fst hp)
          (by rw [heq]; exact List.mem_cons_self _ _)
      rw [hstep, dictInsert_append _ _ _ hkey]
      have hall2 : ∀ c2 ∈ rest, (sqlTypeOf c2.dtype).isSome :=
        fun c2 hc2 => hall c2 (by simp [hc2])
      have hnodup3 : ((acc ++ [(g.idFn c.name, t)]).map Prod.fst ++
          rest.map (fun c => g.idFn c.name)).Nodup := by
        simp only [List.map_append, List.map_cons, List.map_nil,
          List.append_assoc, List.singleton_append]
        simpa using hnodup2
      rw [ih (acc ++ [(g.idFn c.name, t)]) hall2 hnodup3]
      simp [ht]

/-- C7: when every column classification is mapped and the quoted column
names are pairwise distinct (so the dict comprehension collides nowhere),
`generate_schema` returns exactly `CREATE TABLE <quoted name> (\n`, then —
joined with `,\n` and each indented by the configured indent width — one
`<quoted column> <mapped type>` line per column in table order followed by
one rendered clause per constraint in caller order, then `\n);\n`; the line
count is the column count plus the constraint count, so a table with `N`
columns and no constraints yields exactly `N` column-spec lines. -/
theorem claim_C7_schema_layout (g : SQLGenerator) (df : DataFrame)
    (tableName : String) (cons : List Constraint)
    (hmap : ∀ c ∈ df.cols, (sqlTypeOf c.dtype).isSome)
    (hnodup : (df.cols.map (fun c => g.idFn c.name)).Nodup) :
    generateSchema g df tableName cons
      = Except.ok ("CREATE TABLE " ++ g.idFn tableName ++ " (\n" ++
          ",\n".intercalate
            ((df.cols.map
                (fun c => g.idFn c.name ++ " " ++ (sqlTypeOf c.dtype).getD "")
              ++ cons.map (fun k => k.make g.idFn)).map
                (fun line => spaces g.indent ++ line))
          ++ "\n);\n") ∧
    (df.cols.map
        (fun c => g.idFn c.name ++ " " ++ (sqlTypeOf c.dtype).getD "")
      ++ cons.map (fun k => k.make g.idFn)).length
      = df.cols.length + cons.length := by
  constructor
  · have hmd : mapDtypes g df.cols []
        = Except.ok (df.cols.map
            (fun c => (g.idFn c.name, (sqlTypeOf c.dtype).getD ""))) := by
      simpa using mapDtypes_ok g df.cols [] hmap (by simpa using hnodup)
    unfold generateSchema mapDtypesDf
    rw [hmd]
    simp only [List.map_map, List.map_append]
    rfl
  · simp

theorem ceilDiv_succ_step (n b : Nat) (hb : 0 < b) (hn : 0 < n) :
    (n + b - 1) / b = ((n - b) + b - 1) / b + 1 := by
  rcases le_or_lt n b with hle | hlt
  · have e0 : n - b = 0 := by omega
    have e1 : n + b - 1 = (n - 1) + b := by omega
    rw [e0, e1, Nat.add_div_right _ hb]
    have e2 : (n - 1) / b = 0 := Nat.div_eq_of_lt (by omega)
    have e3 : (0 + b - 1) / b = 0 := Nat.div_eq_of_lt (by omega)
    omega
  · have e1 : n + b - 1 = (n - 1 - b) + b + b := by omega
    have e2 : (n - b) + b - 1 = (n - 1 - b) + b := by omega
    rw [e1, e2, Nat.add_div_right _ hb, Nat.add_div_right _ hb]

theorem sliceChunks_nil (b : Nat) (hb : 0 < b) :
    sliceChunks b ([] : List α) = [] := by
  unfold sliceChunks
  rw [show ((List.length ([] : List α)) + b - 1) / b = 0 from by
    simpa using Nat.div_eq_of_lt (show b - 1 < b by omega)]
  rfl

theorem sliceChunks_peel (b : Nat) (hb : 0 < b) (xs : List α) (hx : xs ≠ []) :
    sliceChunks b xs = xs.take b :: sliceChunks b (xs.drop b) := by
  have hn : 0 < xs.length := List.length_pos.mpr hx
  unfold sliceChunks
  rw [List.length_drop, ceilDiv_succ_step xs.length b hb hn,
    List.range_succ_eq_map]
  simp only [List.map_cons, List.map_map]
  congr 1
  · simp
  · apply List.map_congr_left
    intro i _
    show (xs.drop ((i + 1) * b)).take b = ((xs.drop b).drop (i * b)).take b
    rw [List.drop_drop]
    have : (i + 1) * b = b + i * b := by ring
    rw [this]

theorem sliceChunks_flatten (b : Nat) (hb : 0 < b) (xs : List α) :
    (sliceChunks b xs).flatten = xs := by
  have aux : ∀ (n : Nat) (ys : List α), ys.length ≤ n →
      (sliceChunks b ys).flatten = ys := by
    intro n
    induction n with
    | zero =>
        intro ys hy
        have he : ys = [] := List.length_eq_zero.mp (by omega)
        subst he
        rw [sliceChunks_nil b hb]
        rfl
    | succ n ih =>
        intro ys hy
        rcases eq_or_ne ys [] with he | he
        · subst he
          rw [sliceChunks_nil b hb]
          rfl
        · rw [sliceChunks_peel b hb ys he, List.flatten_cons]
          rw [ih (ys.drop b) (by
            rw [List.length_drop]
            have := List.length_pos.mpr he
            omega)]
          exact List.take_append_drop b ys
  exact aux xs.length xs le_rfl

theorem sliceChunks_length (b : Nat) (xs : List α) :
    (sliceChunks b xs).length = (xs.length + b - 1) / b := by
  simp [sliceChunks]

theorem sliceChunks_get (b : Nat) (xs : List α) (i : Nat)
    (h : i < (sliceChunks b xs).length) :
    (sliceChunks b xs).get ⟨i, h⟩ = (xs.drop (i * b)).take b := by
  simp [sliceChunks]

theorem sliceChunks_get_length (b : Nat) (xs : List α) (i : Nat)
    (h : i < (sliceChunks b xs).length) :
    ((sliceChunks b xs).get ⟨i, h⟩).length = min b (xs.length - i * b) := by
  rw [sliceChunks_get]
  simp [List.length_take, List.length_drop]

theorem ceil_bounds (n b : Nat) (hb : 0 < b) :
    n ≤ ((n + b - 1) / b) * b ∧ ((n + b - 1) / b) * b < n + b := by
  constructor
  · have h1 := Nat.div_add_mod (n + b - 1) b
    have h2 : (n + b - 1) % b < b := Nat.mod_lt _ hb
    have h3 : ((n + b - 1) / b) * b = b * ((n + b - 1) / b) :=
      Nat.mul_comm _ _
    omega
  · have h4 := Nat.div_mul_le_self (n + b - 1) b
    omega

/-- C7 witness: the spec's example table under the PostgreSQL generator,
evaluated to the exact schema text the spec displays. -/
theorem claim_C7_witness :
    (∀ c ∈ usersDf.cols, (sqlTypeOf c.dtype).isSome) ∧
    (usersDf.cols.map (fun c => postgresqlGenerator.idFn c.name)).Nodup ∧
    generateSchema postgresqlGenerator usersDf "users" [mkPrimaryKey (.s "id")]
      = Except.ok "CREATE TABLE \"users\" (\n  \"id\" INTEGER,\n  \"name\" TEXT,\n  CONSTRAINT \"PK_id\" PRIMARY KEY (\"id\")\n);\n" := by
  refine ⟨by decide, by decide, ?_⟩
  exact ((claim_C7_schema_layout postgresqlGenerator usersDf "users"
    [mkPrimaryKey (.s "id")] (by decide) (by decide)).1).trans (by rfl)

/-- C2: for every positive batch size `B`, `generate_inserts` succeeds and
returns exactly the consecutive `B`-sized slices of the formatted rows, one
statement per slice through the fixed `INSERT INTO ... VALUES ...`
template.  There are `(R + B - 1) / B = ⌈R / B⌉` statements (the two
product bounds pin the division as the ceiling, and `R = 0` gives none),
the `i`-th slice holds `min B (R - i*B)` rows — so every slice before the
last holds exactly `B` and the last holds the remainder — and flattening
the slices in order restores the formatted rows exactly, preserving row
order within and across statements. -/
theorem claim_C2_insert_batching (g : SQLGenerator) (df : DataFrame)
    (tableName : String) (B : Nat) (hB : 0 < B) :
    generateInserts g df tableName (B : Int)
      = Except.ok ((sliceChunks B (df.rows.map (formattedRow g df))).map
          (insertStatement g df tableName)) ∧
    (sliceChunks B (df.rows.map (formattedRow g df))).length
      = (df.rows.length + B - 1) / B ∧
    (df.rows.length = 0 →
      sliceChunks B (df.rows.map (formattedRow g df)) = []) ∧
    df.rows.length
      ≤ (sliceChunks B (df.rows.map (formattedRow g df))).length * B ∧
    (sliceChunks B (df.rows.map (formattedRow g df))).length * B
      < df.rows.length + B ∧
    (∀ i (h : i < (sliceChunks B (df.rows.map (formattedRow g df))).length),
      ((sliceChunks B (df.rows.map (formattedRow g df))).get ⟨i, h⟩).length
        = min B (df.rows.length - i * B)) ∧
    (∀ i (h : i < (sliceChunks B (df.rows.map (formattedRow g df))).length),
      i + 1 < (sliceChunks B (df.rows.map (formattedRow g df))).length →
      ((sliceChunks B (df.rows.map (formattedRow g df))).get ⟨i, h⟩).length
        = B) ∧
    (∀ h0 : 0 < (sliceChunks B (df.rows.map (formattedRow g df))).length,
      ((sliceChunks B (df.rows.map (formattedRow g df))).get
        ⟨(sliceChunks B (df.rows.map (formattedRow g df))).length - 1,
          by omega⟩).length
        = df.rows.length
          - ((sliceChunks B (df.rows.map (formattedRow g df))).length - 1)
            * B) ∧
    (sliceChunks B (df.rows.map (formattedRow g df))).flatten
      = df.rows.map (formattedRow g df) := by
  have hq : (sliceChunks B (df.rows.map (formattedRow g df))).length
      = (df.rows.length + B - 1) / B := by
    rw [sliceChunks_length]
    simp
  refine ⟨?_, hq, ?_, ?_, ?_, ?_, ?_, ?_, sliceChunks_flatten B hB _⟩
  · have h0 : ¬((B : Int) = 0) := by omega
    have h1 : (0 : Int) < (B : Int) := by omega
    have htn : ((B : Int)).toNat = B := by omega
    have hr : pyRange0 (df.rows.map (formattedRow g df)).length ((B : Int))
        = Except.ok ((List.range
            (((df.rows.map (formattedRow g df)).length + B - 1) / B)).map
              (fun i => i * B)) := by
      unfold pyRange0
      rw [if_neg h0, if_pos h1, htn]
    simp only [generateInserts, hr, htn]
    unfold sliceChunks
    simp only [List.map_map]
    rfl
  · intro h
    have he : df.rows = [] := List.length_eq_zero.mp h
    rw [he]
    simp only [List.map_nil]
    exact sliceChunks_nil B hB
  · rw [hq]
    exact (ceil_bounds df.rows.length B hB).1
  · rw [hq]
    exact (ceil_bounds df.rows.length B hB).2
  · intro i h
    rw [sliceChunks_get_length]
    simp
  · intro i h hlast
    rw [sliceChunks_get_length]
    simp only [List.length_map]
    rw [hq] at hlast
    have h1 := Nat.div_mul_le_self (df.rows.length + B - 1) B
    have h2 : (i + 2) * B ≤ ((df.rows.length + B - 1) / B) * B :=
      Nat.mul_le_mul_right _ (by omega)
    have h3 : (i + 2) * B = i * B + 2 * B := by ring
    have h4 : B ≤ df.rows.length - i * B := by omega
    rw [min_eq_left h4]
  · intro h0
    rw [sliceChunks_get_length]
    simp only [List.length_map]
    rw [hq] at h0 ⊢
    have h1 := (ceil_bounds df.rows.length B hB).1
    have h2 : ((df.rows.length + B - 1) / B - 1) * B
        = ((df.rows.length + B - 1) / B) * B - 1 * B :=
      Nat.sub_mul _ _ _
    have h3 : df.rows.length
        - ((df.rows.length + B - 1) / B - 1) * B ≤ B := by omega
    rw [min_eq_right h3]

/-- C2 witness: three rows at batch size two produce two statements, the
first with two row tuples, the second with the remaining one, in order. -/
theorem claim_C2_witness :
    0 < (2 : Nat) ∧
    generateInserts baseGenerator threeRowDf "t" ((2 : Nat) : Int)
      = Except.ok
          ["INSERT INTO \"t\" (\"id\")\nVALUES\n  (1),\n  (2)\n;\n\n",
           "INSERT INTO \"t\" (\"id\")\nVALUES\n  (3)\n;\n\n"] :=
  ⟨by decide,
    ((claim_C2_insert_batching baseGenerator threeRowDf "t" 2
      (by decide)).1).trans (by rfl)⟩

end Pandas2Sql
